import Mathlib

/-!
Verification of the goxkey input-method engine (`src/main.rs`).

The dispatcher (`event_handler`), the replay helpers (`do_transform_keys`,
`do_restore_word`, `do_macro_replace`) and the auto-toggle entry point
(`auto_toggle_vietnamese`) are translated directly from `src/main.rs`.
The `InputState` methods, the hotkey matcher and the platform key constants
live in modules that are not part of the sources here (`input.rs`,
`hotkey.rs`, `platform/`); those are modelled from the specification, each
with a doc comment saying so.

Strings are modelled as `List Char` (Rust `String` under `chars()`), and
the synthetic-input sink is modelled by an emitted trace of `Act` values:
each `send_backspace` / `send_string` call appends an element, and each
mutating word-state operation appends a marker at its call site, so that
ordering properties of a dispatch are properties of the trace.
-/

namespace Goxkey

/-- Modifier bitmask, from `platform::KeyModifier` (bitflags; the module is
not among the sources, the flags are modelled from the spec's
`ModifierState` bitmask). -/
structure KeyModifier where
  shift : Bool
  control : Bool
  alt : Bool
  sup : Bool
  capslock : Bool
deriving DecidableEq, Repr

/-- The empty modifier set (`KeyModifier::MODIFIER_NONE`). -/
def KeyModifier.modifierNone : KeyModifier := ⟨false, false, false, false, false⟩

/-- `KeyModifier::is_empty`: no bit set. -/
def KeyModifier.is_empty (m : KeyModifier) : Bool :=
  !(m.shift || m.control || m.alt || m.sup || m.capslock)

/-- `KeyModifier::is_shift`: the shift bit is set. -/
def KeyModifier.is_shift (m : KeyModifier) : Bool := m.shift

/-- `KeyModifier::is_control`: the control bit is set. -/
def KeyModifier.is_control (m : KeyModifier) : Bool := m.control

/-- `KeyModifier::is_alt`: the alt bit is set. -/
def KeyModifier.is_alt (m : KeyModifier) : Bool := m.alt

/-- `KeyModifier::is_super`: the super bit is set. -/
def KeyModifier.is_super (m : KeyModifier) : Bool := m.sup

/-- `KeyModifier::is_capslock`: the capslock bit is set. -/
def KeyModifier.is_capslock (m : KeyModifier) : Bool := m.capslock

/-- `bitflags::set(flags, true)`: OR the given flags into the set
(used as `hotkey_modifiers.set(modifiers, true)` in `event_handler`). -/
def KeyModifier.set (m flags : KeyModifier) : KeyModifier :=
  ⟨m.shift || flags.shift, m.control || flags.control, m.alt || flags.alt,
   m.sup || flags.sup, m.capslock || flags.capslock⟩

/-- Modelled from the spec: `HotkeyMatchState`'s configured hotkey is a
"(modifier set, optional trigger key)" pair; `hotkey.rs` is not among the
sources. -/
structure Hotkey where
  modifiers : KeyModifier
  keycode : Option Char
deriving DecidableEq, Repr

/-- Modelled from the spec: `Hotkey::is_match` — "`matching` = held
modifiers currently equal the configured set", together with the optional
trigger key, which must be the pressed key exactly (`hotkey.rs` is not
among the sources). -/
def Hotkey.is_match (hk : Hotkey) (held : KeyModifier) (pressed : Option Char) : Bool :=
  decide (held = hk.modifiers) && decide (pressed = hk.keycode)

/-- `TransformResult` flags, from the spec's data model (the result type of
the external Transformation Oracle; only the two removal flags are consumed
by `main.rs`). -/
structure TransformResult where
  tone_mark_removed : Bool
  letter_modification_removed : Bool
deriving DecidableEq, Repr

/-- The word-composition state (`InputState` of `input.rs`, which is not
among the sources). Fields are modelled from the spec's `WordState`,
`EngineConfig` and `ActiveAppIdentity`; configuration fields are read-only
to the dispatcher. -/
structure InputState where
  typing_buffer : List Char
  displaying_word : List Char
  tracking : Bool
  previous_word : List Char
  temp_disabled : Bool
  enabled : Bool
  auto_toggle_enabled : Bool
  previous_modifiers : KeyModifier
  hotkey : Hotkey
  macro_table : List (List Char × List Char)
  allowed_words : List (List Char)
  stop_tracking_words : List (List Char)
  app_config : List (List Char × Bool)
  default_enabled : Bool
  active_app_needs_dismiss : Bool
deriving DecidableEq, Repr

/-- Modelled from the spec: `push(char)` appends to the buffer only while
`tracking` (`input.rs` is not among the sources). -/
def InputState.push (s : InputState) (c : Char) : InputState :=
  if s.tracking then { s with typing_buffer := s.typing_buffer ++ [c] } else s

/-- Modelled from the spec: `pop()` removes the last raw character
(`input.rs` is not among the sources). -/
def InputState.pop (s : InputState) : InputState :=
  { s with typing_buffer := s.typing_buffer.dropLast }

/-- Modelled from the spec: `new_word()` snapshots `displaying_word` into
`previous_word`, clears both buffer and displaying word, and re-enables
tracking unless temporarily disabled (`input.rs` is not among the
sources). -/
def InputState.new_word (s : InputState) : InputState :=
  { s with previous_word := s.displaying_word,
           typing_buffer := [],
           displaying_word := [],
           tracking := if s.temp_disabled then s.tracking else true }

/-- Modelled from the spec: `replace(text)` sets `displaying_word = text`
(`input.rs` is not among the sources). -/
def InputState.replace (s : InputState) (text : List Char) : InputState :=
  { s with displaying_word := text }

/-- Modelled from the spec: `stop_tracking()` sets `tracking = false`
(`input.rs` is not among the sources). -/
def InputState.stop_tracking (s : InputState) : InputState :=
  { s with tracking := false }

/-- Modelled from the spec: `is_allowed_word` is the allowed-word
exception-list lookup (`input.rs` is not among the sources). -/
def InputState.is_allowed_word (s : InputState) (w : List Char) : Bool :=
  decide (w ∈ s.allowed_words)

/-- Modelled from the spec: `previous_word_is_stop_tracking_words()`
checks the previous word against the recorded stop-tracking history
(`input.rs` is not among the sources). -/
def InputState.previous_word_is_stop_tracking_words (s : InputState) : Bool :=
  decide (s.previous_word ∈ s.stop_tracking_words)

/-- Modelled from the spec: `clear_previous_word()` clears the stale
stop-tracking history (`input.rs` is not among the sources). -/
def InputState.clear_previous_word (s : InputState) : InputState :=
  { s with previous_word := [] }

/-- Association-list lookup used for the macro table and the per-app
configuration. -/
def lookupAssoc {β : Type} (k : List Char) : List (List Char × β) → Option β
  | [] => none
  | p :: rest => if p.1 = k then some p.2 else lookupAssoc k rest

/-- Modelled from the spec: `get_macro_target()` looks the finalized word
up in the macro trigger → replacement table (`input.rs` is not among the
sources). -/
def InputState.get_macro_target (s : InputState) : Option (List Char) :=
  lookupAssoc s.displaying_word s.macro_table

/-- Modelled from the spec: `set_temporary_disabled()` sets the
temporarily-disabled flag (`input.rs` is not among the sources). -/
def InputState.set_temporary_disabled (s : InputState) : InputState :=
  { s with temp_disabled := true }

/-- Modelled from the spec: `toggle_vietnamese()` flips the enabled flag
(`input.rs` is not among the sources). -/
def InputState.toggle_vietnamese (s : InputState) : InputState :=
  { s with enabled := !s.enabled }

/-- Modelled from the spec: `is_enabled()` reads the enabled flag
(`input.rs` is not among the sources). -/
def InputState.is_enabled (s : InputState) : Bool := s.enabled

/-- Modelled from the spec: `is_tracking()` reads the tracking flag
(`input.rs` is not among the sources). -/
def InputState.is_tracking (s : InputState) : Bool := s.tracking

/-- Modelled from the spec: `get_backspace_count(is_delete)` equals the
character length of `displaying_word`, decremented by one when `is_delete`
is true (`input.rs` is not among the sources). -/
def InputState.get_backspace_count (s : InputState) (is_delete : Bool) : Nat :=
  if is_delete then s.displaying_word.length - 1 else s.displaying_word.length

/-- Modelled from the spec: `should_send_keyboard_event(output)` is false
exactly when `output == displaying_word` (`input.rs` is not among the
sources). -/
def InputState.should_send_keyboard_event (s : InputState) (output : List Char) : Bool :=
  decide (¬ output = s.displaying_word)

/-- Modelled from the spec: `should_dismiss_selection_if_needed()` is true
only for target applications whose accessibility surface hides a
pre-selected suggestion; modelled as a per-state flag derived from the
active application (`input.rs` is not among the sources). -/
def InputState.should_dismiss_selection_if_needed (s : InputState) : Bool :=
  s.active_app_needs_dismiss

/-- Modelled from the spec: `get_previous_modifiers()` reads the recorded
modifier state (`input.rs` is not among the sources; `main.rs` only reads
it). -/
def InputState.get_previous_modifiers (s : InputState) : KeyModifier :=
  s.previous_modifiers

/-- Accessor for the configured hotkey (`get_hotkey()`). -/
def InputState.get_hotkey (s : InputState) : Hotkey := s.hotkey

/-- Accessor for the typing buffer (`get_typing_buffer()`). -/
def InputState.get_typing_buffer (s : InputState) : List Char := s.typing_buffer

/-- Accessor for the displaying word (`get_displaying_word()`). -/
def InputState.get_displaying_word (s : InputState) : List Char := s.displaying_word

/-- Modelled from the spec: `is_auto_toggle_enabled()` reads the
auto-toggle configuration flag (`input.rs` is not among the sources). -/
def InputState.is_auto_toggle_enabled (s : InputState) : Bool := s.auto_toggle_enabled

/-- Modelled from the spec: `update_active_app()` looks up the desired
enabled-state for the (new) foreground app, falling back to the global
default; if it differs from the current state it applies it and reports a
change (`Some`), otherwise it reports no change (`None`) (`input.rs` is
not among the sources). -/
def InputState.update_active_app (s : InputState) (app : List Char) : Option Bool × InputState :=
  let desired := (lookupAssoc app s.app_config).getD s.default_enabled
  if desired = s.enabled then (none, s)
  else (some desired, { s with enabled := desired })

/-- The external Transformation Oracle (`vi` crate) and validator, kept
abstract: `transform_keys` applies the oracle to the typing buffer, and
`vi::validation::is_valid_word` checks linguistic validity. Both are pure
per the spec's contract. -/
structure Env where
  transform : List Char → Option (List Char × TransformResult)
  is_valid_word : List Char → Bool

/-- One observable action of a dispatch: a synthetic-input call
(`send_backspace`, `send_string`) or a marker emitted at the call site of
a word-state operation, used to state ordering properties. -/
inductive Act where
  | sendBackspace : Nat → Act
  | sendStr : List Char → Act
  | restoreMark : Act
  | clearPrevMark : Act
  | macroMark : List Char → Act
  | newWordMark : Act
  | toggleMark : Act
  | tempDisableMark : Act
  | popMark : Act
  | pushMark : Char → Act
deriving DecidableEq, Repr

/-- `do_transform_keys` from `main.rs`: run the oracle on the buffer; on
success, if the output differs from what is on screen (or a delete is
being compensated), optionally dismiss a hidden selection (send a space
and delete it), erase `get_backspace_count(is_delete)` characters, send
the output, record it via `replace`, and stop tracking when the oracle
reports it removed a mark; returns whether the original key is consumed. -/
def do_transform_keys (env : Env) (is_delete : Bool) (s : InputState) :
    InputState × List Act × Bool :=
  match env.transform s.typing_buffer with
  | some (output, transform_result) =>
    if s.should_send_keyboard_event output || is_delete then
      let dismiss_acts : List Act :=
        if s.should_dismiss_selection_if_needed then
          [Act.sendStr [' '], Act.sendBackspace 1]
        else []
      let backspace_count := s.get_backspace_count is_delete
      let s1 := s.replace output
      let s2 := if transform_result.letter_modification_removed
                   || transform_result.tone_mark_removed
                then s1.stop_tracking else s1
      (s2, dismiss_acts ++ [Act.sendBackspace backspace_count, Act.sendStr output], true)
    else (s, [], false)
  | none => (s, [], false)

/-- `do_restore_word` from `main.rs`: erase `get_backspace_count(true)`
characters, resend the raw typing buffer, and record it via `replace`. -/
def do_restore_word (s : InputState) : InputState × List Act :=
  let backspace_count := s.get_backspace_count true
  let typing_buffer := s.get_typing_buffer
  (s.replace typing_buffer,
   [Act.restoreMark, Act.sendBackspace backspace_count, Act.sendStr typing_buffer])

/-- `do_macro_replace` from `main.rs`: erase `get_backspace_count(true)`
characters, send the macro replacement, and record it via `replace`. -/
def do_macro_replace (target : List Char) (s : InputState) : InputState × List Act :=
  let backspace_count := s.get_backspace_count true
  (s.replace target,
   [Act.macroMark target, Act.sendBackspace backspace_count, Act.sendStr target])

/-- `auto_toggle_vietnamese` from `main.rs`: no-op when auto-toggle is
disabled; otherwise apply `update_active_app` and emit a UI refresh
(second component `true`) exactly when it reported a change. -/
def auto_toggle_vietnamese (app : List Char) (s : InputState) : InputState × Bool :=
  if !s.is_auto_toggle_enabled then (s, false)
  else
    let r := s.update_active_app app
    if r.1.isSome then (r.2, true) else (r.2, false)

/-- Event kinds of the OS tap (`platform::EventTapType`). -/
inductive EventTapType where
  | KeyDown
  | FlagsChanged
  | Other
deriving DecidableEq, Repr

/-- A pressed key delivered by the tap (`platform::PressedKey`). -/
inductive PressedKey where
  | Raw : Nat → PressedKey
  | Char : Char → PressedKey
deriving DecidableEq, Repr

/-- The hotkey-matcher shared state: the three mutexed globals
`HOTKEY_MODIFIERS`, `HOTKEY_MATCHING`, `HOTKEY_MATCHING_CIRCUIT_BREAK`. -/
structure HkState where
  hotkey_modifiers : KeyModifier
  hotkey_matching : Bool
  circuit_break : Bool
deriving DecidableEq, Repr

/-- Modelled platform constant `KEY_ENTER` (the concrete code point is
irrelevant; only distinctness of the key constants matters). -/
def KEY_ENTER : Char := Char.ofNat 13

/-- Modelled platform constant `KEY_TAB`. -/
def KEY_TAB : Char := Char.ofNat 9

/-- Modelled platform constant `KEY_SPACE`. -/
def KEY_SPACE : Char := Char.ofNat 32

/-- Modelled platform constant `KEY_ESCAPE`. -/
def KEY_ESCAPE : Char := Char.ofNat 27

/-- Modelled platform constant `KEY_DELETE`. -/
def KEY_DELETE : Char := Char.ofNat 8

/-- Modelled platform constant `RAW_KEY_GLOBE` (macOS Globe/Fn key). -/
def RAW_KEY_GLOBE : Nat := 179

/-- Modelled platform constant `RAW_ARROW_LEFT`. -/
def RAW_ARROW_LEFT : Nat := 123

/-- Modelled platform constant `RAW_ARROW_RIGHT`. -/
def RAW_ARROW_RIGHT : Nat := 124

/-- Modelled platform constant `RAW_ARROW_DOWN`. -/
def RAW_ARROW_DOWN : Nat := 125

/-- Modelled platform constant `RAW_ARROW_UP`. -/
def RAW_ARROW_UP : Nat := 126

/-- The special-character class checked by the dispatcher, the literal
string constant of `main.rs` (brace, backtick, apostrophe and quote are
written via their code points). -/
def special_chars : List Char :=
  ['(', ')', '[', ']', Char.ofNat 123, Char.ofNat 125, '<', '>', '/', '\\',
   '!', '@', '#', '$', '%', '^', '&', '*', '-', '_', '=', '+', '|', '~',
   Char.ofNat 96, ',', '.', ';', Char.ofNat 39, Char.ofNat 34, '/']

/-- The `PressedKey::Raw` arm of the dispatcher's `match pressed_key`
(lines 147–160 of `main.rs`): Globe key toggles Vietnamese and consumes
the event; arrow keys start a new word. -/
def dispatch_raw (raw_keycode : Nat) (s1 : InputState) : InputState × List Act × Bool :=
  if raw_keycode = RAW_KEY_GLOBE then
    (s1.toggle_vietnamese, [Act.toggleMark], true)
  else
    let vert := raw_keycode = RAW_ARROW_UP ∨ raw_keycode = RAW_ARROW_DOWN
    let s2 := if vert then s1.new_word else s1
    let a2 : List Act := if vert then [Act.newWordMark] else []
    let horiz := raw_keycode = RAW_ARROW_LEFT ∨ raw_keycode = RAW_ARROW_RIGHT
    let s3 := if horiz then s2.new_word else s2
    let a3 : List Act := if horiz then [Act.newWordMark] else []
    (s3, a2 ++ a3, false)

/-- The `if let Some(macro_target) = get_macro_target()` step of the
word-boundary branch (lines 184–189 of `main.rs`): expand the macro when
the finalized word matches a trigger, otherwise do nothing. -/
def macro_step (s3 : InputState) : InputState × List Act :=
  match s3.get_macro_target with
  | some macro_target => do_macro_replace macro_target s3
  | none => (s3, [])

/-- The `PressedKey::Char` arm of the dispatcher (lines 161–241 of
`main.rs`): word-boundary keys run restore / history-clear / macro /
reset; the delete key edits or resets; special characters and
modifier-chorded keys reset; tracked letters are pushed and
transformed. -/
def dispatch_char (env : Env) (keycode : Char) (modifiers : KeyModifier)
    (s1 : InputState) : InputState × List Act × Bool :=
  if s1.is_enabled then
    if keycode = KEY_ENTER ∨ keycode = KEY_TAB ∨ keycode = KEY_SPACE ∨ keycode = KEY_ESCAPE then
      let is_valid_word := env.is_valid_word s1.get_displaying_word
      let is_allowed_word := s1.is_allowed_word s1.get_displaying_word
      let is_transformed_word := decide (¬ s1.get_typing_buffer = s1.get_displaying_word)
      let r1 := if is_transformed_word && !is_valid_word && !is_allowed_word
                then do_restore_word s1 else (s1, [])
      let s2 := r1.1
      let r2 := if s2.previous_word_is_stop_tracking_words
                then (s2.clear_previous_word, [Act.clearPrevMark]) else (s2, [])
      let s3 := r2.1
      let r3 := if keycode = KEY_TAB ∨ keycode = KEY_SPACE then macro_step s3
                else (s3, [])
      let s4 := r3.1
      (s4.new_word, r1.2 ++ r2.2 ++ r3.2 ++ [Act.newWordMark], false)
    else if keycode = KEY_DELETE then
      if !modifiers.is_empty && !modifiers.is_shift then
        (s1.new_word, [Act.newWordMark], false)
      else
        (s1.pop, [Act.popMark], false)
    else
      if decide (keycode ∈ special_chars) || (keycode.isDigit && modifiers.is_shift) then
        let r1 := if keycode.isDigit
                  then (s1.push keycode, [Act.pushMark keycode]) else (s1, [])
        (r1.1.new_word, r1.2 ++ [Act.newWordMark], false)
      else if modifiers.is_super || modifiers.is_alt then
        (s1.new_word, [Act.newWordMark], false)
      else if s1.is_tracking then
        let c := if modifiers.is_shift || modifiers.is_capslock
                 then keycode.toUpper else keycode
        let s2 := s1.push c
        let r := do_transform_keys env false s2
        (r.1, Act.pushMark c :: r.2.1, r.2.2)
      else
        (s1, [], false)
  else
    if keycode = KEY_ENTER ∨ keycode = KEY_TAB ∨ keycode = KEY_SPACE ∨ keycode = KEY_ESCAPE then
      (s1.new_word, [Act.newWordMark], false)
    else if !modifiers.is_empty then
      (s1.new_word, [Act.newWordMark], false)
    else
      (s1, [], false)

/-- The `None` arm of the dispatcher (lines 244–259 of `main.rs`):
with previously-empty modifiers, a Control chord restores the raw buffer
(when non-empty) and temporarily disables the engine; Super or an `Other`
event starts a new word. -/
def dispatch_none (event_type : EventTapType) (modifiers : KeyModifier)
    (s1 : InputState) : InputState × List Act × Bool :=
  let previous_modifiers := s1.get_previous_modifiers
  if previous_modifiers.is_empty then
    let r1 := if modifiers.is_control then
                let rA := if decide (¬ s1.get_typing_buffer = [])
                          then do_restore_word s1 else (s1, [])
                (rA.1.set_temporary_disabled, rA.2 ++ [Act.tempDisableMark])
              else (s1, [])
    let s2 := r1.1
    let r2 := if modifiers.is_super || decide (event_type = EventTapType.Other)
              then (s2.new_word, [Act.newWordMark]) else (s2, [])
    (r2.1, r1.2 ++ r2.2, false)
  else
    (s1, [], false)

/-- The `match pressed_key` block of `event_handler` (lines 144–260 of
`main.rs`); it never touches the hotkey-matcher state, so it is factored
out over the input state alone. Returns the new state, the emitted trace
and the "consumed" flag. -/
def dispatch_key (env : Env) (event_type : EventTapType) (pressed_key : Option PressedKey)
    (modifiers : KeyModifier) (s1 : InputState) : InputState × List Act × Bool :=
  match pressed_key with
  | some (PressedKey.Raw raw_keycode) => dispatch_raw raw_keycode s1
  | some (PressedKey.Char keycode) => dispatch_char env keycode modifiers s1
  | none => dispatch_none event_type modifiers s1

/-- The result of one dispatch: the new word-composition state, the new
hotkey-matcher state, the trace of emitted actions and the "consumed"
return value. -/
structure HandlerResult where
  state : InputState
  hk : HkState
  trace : List Act
  consumed : Bool
deriving Repr

/-- The character payload of a pressed key, as extracted at the top of
`event_handler` (`pressed_key_code`). -/
def pressed_code (pk : Option PressedKey) : Option Char :=
  pk.bind fun p =>
    match p with
    | PressedKey.Char c => some c
    | _ => none

/-- The firing condition of the toggle inside the FlagsChanged block
(lines 117–127 of `main.rs`): a FlagsChanged event with the modifier set
empty, while the chord was matching and not circuit-broken. -/
def toggle_fired (event_type : EventTapType) (modifiers : KeyModifier) (hk0 : HkState) : Bool :=
  decide (event_type = EventTapType.FlagsChanged) && modifiers.is_empty
    && hk0.hotkey_matching && !hk0.circuit_break

/-- The hotkey-matcher state after one event (lines 117–142 of `main.rs`):
a FlagsChanged full release resets the three globals; a FlagsChanged with
modifiers held ORs them in; then the match against the configured hotkey
is recomputed, circuit-breaking when a previously matching chord stops
matching. -/
def hk_after (s1 : InputState) (event_type : EventTapType) (pk : Option PressedKey)
    (modifiers : KeyModifier) (hk0 : HkState) : HkState :=
  let fc := decide (event_type = EventTapType.FlagsChanged)
  let hk1 : HkState :=
    if fc then
      if modifiers.is_empty then ⟨KeyModifier.modifierNone, false, false⟩
      else { hk0 with hotkey_modifiers := hk0.hotkey_modifiers.set modifiers }
    else hk0
  let is_hotkey_matched := s1.get_hotkey.is_match hk1.hotkey_modifiers (pressed_code pk)
  { hk1 with
    circuit_break := hk1.circuit_break || (hk1.hotkey_matching && !is_hotkey_matched),
    hotkey_matching := is_hotkey_matched }

/-- `event_handler` from `main.rs`: hotkey bookkeeping first (firing the
toggle on a full modifier release while matching and not circuit-broken,
then resetting; otherwise accumulating held modifiers and recomputing the
match with circuit-break), then the key dispatch, which never touches the
matcher state. -/
def event_handler (env : Env) (event_type : EventTapType) (pressed_key : Option PressedKey)
    (modifiers : KeyModifier) (s0 : InputState) (hk0 : HkState) : HandlerResult :=
  let fired := toggle_fired event_type modifiers hk0
  let s1 := if fired then s0.toggle_vietnamese else s0
  let acts0 : List Act := if fired then [Act.toggleMark] else []
  let r := dispatch_key env event_type pressed_key modifiers s1
  ⟨r.1, hk_after s1 event_type pressed_key modifiers hk0, acts0 ++ r.2.1, r.2.2⟩

/-- Run the dispatcher over a list of events, concatenating the traces. -/
def run (env : Env) :
    List (EventTapType × Option PressedKey × KeyModifier) → InputState → HkState →
    InputState × HkState × List Act
  | [], s, hk => (s, hk, [])
  | e :: rest, s, hk =>
    let r := event_handler env e.1 e.2.1 e.2.2 s hk
    let rr := run env rest r.state r.hk
    (rr.1, rr.2.1, r.trace ++ rr.2.2)

/-- Number of toggle firings recorded in a trace. -/
def toggleCount : List Act → Nat
  | [] => 0
  | Act.toggleMark :: rest => toggleCount rest + 1
  | _ :: rest => toggleCount rest

/-- The synthetic-input calls of a trace, markers removed. -/
def sendsOf : List Act → List Act
  | [] => []
  | Act.sendBackspace n :: rest => Act.sendBackspace n :: sendsOf rest
  | Act.sendStr t :: rest => Act.sendStr t :: sendsOf rest
  | _ :: rest => sendsOf rest

/-- Effect of one action on the on-screen text: a backspace removes the
last character (n of them remove the last n), a send appends; markers do
nothing. -/
def applyAct (screen : List Char) : Act → List Char
  | Act.sendBackspace n => screen.take (screen.length - n)
  | Act.sendStr t => screen ++ t
  | _ => screen

/-- Effect of a trace on the on-screen text. -/
def applyActs (screen : List Char) : List Act → List Char
  | [] => screen
  | a :: rest => applyActs (applyAct screen a) rest

/-- A Ctrl-only modifier set. -/
def ctrlOnly : KeyModifier := ⟨false, true, false, false, false⟩

/-- A concrete engine state used to instantiate the theorems: empty word,
tracking, enabled, Ctrl-only hotkey, empty configuration. -/
def baseState : InputState :=
  { typing_buffer := []
    displaying_word := []
    tracking := true
    previous_word := []
    temp_disabled := false
    enabled := true
    auto_toggle_enabled := false
    previous_modifiers := KeyModifier.modifierNone
    hotkey := ⟨ctrlOnly, none⟩
    macro_table := []
    allowed_words := []
    stop_tracking_words := []
    app_config := []
    default_enabled := true
    active_app_needs_dismiss := false }

/-- A concrete state mid-word: raw keys a, b, c shown as a transformed
word on screen. -/
def restoreState : InputState :=
  { baseState with typing_buffer := ['a', 'b', 'c'], displaying_word := ['a', 'b', 'd'] }

/-- A concrete state whose finalized word matches a macro trigger
(b, t, w → b, y), with the word displayed untransformed. -/
def macroState : InputState :=
  { baseState with
    typing_buffer := ['b', 't', 'w']
    displaying_word := ['b', 't', 'w']
    macro_table := [(['b', 't', 'w'], ['b', 'y'])] }

/-- An oracle that always fails, with a validator that rejects everything. -/
def envNone : Env := ⟨fun _ => none, fun _ => false⟩

/-- An oracle that always returns the given output with no removal flags. -/
def envConst (out : List Char) : Env := ⟨fun _ => some (out, ⟨false, false⟩), fun _ => false⟩

/-- Hotkey-matcher state with nothing held and no match in progress. -/
def hkInit : HkState := ⟨KeyModifier.modifierNone, false, false⟩

/-- Hotkey press-then-release for a Ctrl-only hotkey: the two FlagsChanged
events of the spec's first scenario. -/
def scenarioPressRelease : List (EventTapType × Option PressedKey × KeyModifier) :=
  [(EventTapType.FlagsChanged, none, ctrlOnly),
   (EventTapType.FlagsChanged, none, KeyModifier.modifierNone)]

/-- Ctrl pressed, then the C key, then full release: the spec's
circuit-break scenario. -/
def scenarioCtrlC : List (EventTapType × Option PressedKey × KeyModifier) :=
  [(EventTapType.FlagsChanged, none, ctrlOnly),
   (EventTapType.KeyDown, some (PressedKey.Char 'c'), ctrlOnly),
   (EventTapType.FlagsChanged, none, KeyModifier.modifierNone)]

/-- Restore condition of the word-boundary branch: the word was
transformed and is neither linguistically valid nor in the allow-list. -/
def boundary_restore_cond (env : Env) (s : InputState) : Bool :=
  decide (¬ s.get_typing_buffer = s.get_displaying_word)
    && !(env.is_valid_word s.get_displaying_word)
    && !(s.is_allowed_word s.get_displaying_word)

/-- Word state after the (conditional) restore step of the boundary
branch. -/
def boundary_after_restore (env : Env) (s : InputState) : InputState :=
  if boundary_restore_cond env s then (do_restore_word s).1 else s

/-- Word state after the (conditional) stop-tracking-history clearing step
of the boundary branch. -/
def boundary_after_hist (env : Env) (s : InputState) : InputState :=
  let s2 := boundary_after_restore env s
  if s2.previous_word_is_stop_tracking_words then s2.clear_previous_word else s2

theorem toggleCount_append (a b : List Act) :
    toggleCount (a ++ b) = toggleCount a + toggleCount b := by
  induction a with
  | nil => simp [toggleCount]
  | cons h t ih =>
    cases h
    all_goals simp [toggleCount, ih]
    all_goals omega

theorem applyActs_append (a b : List Act) (screen : List Char) :
    applyActs screen (a ++ b) = applyActs (applyActs screen a) b := by
  induction a generalizing screen with
  | nil => simp [applyActs]
  | cons h t ih => simp [applyActs, ih]

theorem erase_then_send (pre d out : List Char) :
    applyActs (pre ++ d) [Act.sendBackspace d.length, Act.sendStr out] = pre ++ out := by
  simp only [applyActs, applyAct, List.length_append, Nat.add_sub_cancel]
  rw [List.take_left]

theorem dismiss_neutral (screen : List Char) :
    applyActs screen [Act.sendStr [' '], Act.sendBackspace 1] = screen := by
  simp only [applyActs, applyAct, List.length_append, List.length_cons,
    List.length_nil, Nat.zero_add, Nat.add_sub_cancel]
  rw [List.take_left]

theorem replay_screen (pre d out : List Char) (dismiss : Bool) :
    applyActs (pre ++ d)
      ((if dismiss then [Act.sendStr [' '], Act.sendBackspace 1] else []) ++
       [Act.sendBackspace d.length, Act.sendStr out]) = pre ++ out := by
  cases dismiss
  · simpa using erase_then_send pre d out
  · rw [applyActs_append]
    have h : (if (true : Bool) = true then [Act.sendStr [' '], Act.sendBackspace 1]
        else ([] : List Act)) = [Act.sendStr [' '], Act.sendBackspace 1] := rfl
    rw [h, dismiss_neutral, erase_then_send]

theorem do_transform_keys_spec (env : Env) (is_delete : Bool) (s : InputState)
    (output : List Char) (tr : TransformResult)
    (h : env.transform s.typing_buffer = some (output, tr))
    (hsend : (s.should_send_keyboard_event output || is_delete) = true) :
    (do_transform_keys env is_delete s).2.1 =
      (if s.should_dismiss_selection_if_needed then [Act.sendStr [' '], Act.sendBackspace 1]
       else []) ++
      [Act.sendBackspace (s.get_backspace_count is_delete), Act.sendStr output] ∧
    (do_transform_keys env is_delete s).1.displaying_word = output ∧
    (do_transform_keys env is_delete s).2.2 = true := by
  unfold do_transform_keys
  rw [h]
  simp only []
  rw [if_pos hsend]
  refine ⟨rfl, ?_, rfl⟩
  by_cases hf : (tr.letter_modification_removed || tr.tone_mark_removed) = true
  · simp [hf, InputState.stop_tracking, InputState.replace]
  · simp [hf, InputState.replace]

theorem do_restore_word_spec (s : InputState) :
    (do_restore_word s).2 =
      [Act.restoreMark, Act.sendBackspace (s.get_backspace_count true),
       Act.sendStr s.typing_buffer] ∧
    (do_restore_word s).1.displaying_word = s.typing_buffer := ⟨rfl, rfl⟩

theorem do_macro_replace_spec (target : List Char) (s : InputState) :
    (do_macro_replace target s).2 =
      [Act.macroMark target, Act.sendBackspace (s.get_backspace_count true),
       Act.sendStr target] ∧
    (do_macro_replace target s).1.displaying_word = target := ⟨rfl, rfl⟩

/-- Claim C1: for a `displaying_word` of character length `L`,
`get_backspace_count false = L` and `get_backspace_count true = L - 1`;
a replay sends exactly that many backspaces before the output string, so
the final on-screen text equals the intended transformed output regardless
of `is_delete` (for `is_delete = true` the OS has already removed the last
on-screen character before the replay). -/
theorem c1_backspace_count_and_replay (env : Env) (s : InputState) (pre output : List Char)
    (tr : TransformResult) (is_delete : Bool)
    (h : env.transform s.typing_buffer = some (output, tr))
    (hsend : (s.should_send_keyboard_event output || is_delete) = true) :
    s.get_backspace_count false = s.displaying_word.length ∧
    s.get_backspace_count true = s.displaying_word.length - 1 ∧
    applyActs (pre ++ (if is_delete then s.displaying_word.dropLast else s.displaying_word))
      (do_transform_keys env is_delete s).2.1 = pre ++ output ∧
    applyActs (pre ++ s.displaying_word.dropLast) (do_restore_word s).2
      = pre ++ s.typing_buffer := by
  refine ⟨rfl, rfl, ?_, ?_⟩
  · rw [(do_transform_keys_spec env is_delete s output tr h hsend).1]
    cases is_delete
    · exact replay_screen pre s.displaying_word output s.should_dismiss_selection_if_needed
    · simp only [InputState.get_backspace_count, if_pos]
      rw [← List.length_dropLast]
      exact replay_screen pre s.displaying_word.dropLast output
        s.should_dismiss_selection_if_needed
  · have h2 := erase_then_send pre s.displaying_word.dropLast s.typing_buffer
    rw [List.length_dropLast] at h2
    exact h2

theorem c1_backspace_count_and_replay_witness :
    (envConst ['a', 'b']).transform baseState.typing_buffer = some (['a', 'b'], ⟨false, false⟩) ∧
    (baseState.should_send_keyboard_event ['a', 'b'] || false) = true ∧
    (baseState.get_backspace_count false = baseState.displaying_word.length ∧
     baseState.get_backspace_count true = baseState.displaying_word.length - 1 ∧
     applyActs (['x'] ++ (if false then baseState.displaying_word.dropLast
         else baseState.displaying_word))
       (do_transform_keys (envConst ['a', 'b']) false baseState).2.1 = ['x'] ++ ['a', 'b'] ∧
     applyActs (['x'] ++ baseState.displaying_word.dropLast) (do_restore_word baseState).2
       = ['x'] ++ baseState.typing_buffer) :=
  ⟨rfl, by decide,
   c1_backspace_count_and_replay (envConst ['a', 'b']) baseState ['x'] ['a', 'b']
     ⟨false, false⟩ false rfl (by decide)⟩

/-- Claim C4: when the Transformation Oracle fails on the typing buffer,
`do_transform_keys` performs no synthetic input (empty trace), leaves the
word-composition state unchanged, and returns `false` so the original
keystroke passes through. -/
theorem c4_oracle_failure_passthrough (env : Env) (is_delete : Bool) (s : InputState)
    (h : env.transform s.typing_buffer = none) :
    do_transform_keys env is_delete s = (s, [], false) := by
  simp [do_transform_keys, h]

theorem c4_oracle_failure_passthrough_witness :
    envNone.transform baseState.typing_buffer = none ∧
    do_transform_keys envNone false baseState = (baseState, [], false) :=
  ⟨rfl, c4_oracle_failure_passthrough envNone false baseState rfl⟩

/-- Claim C5: for an output equal to the current `displaying_word`,
`should_send_keyboard_event` returns `false`, and the keystroke path
(`do_transform_keys` with `is_delete = false`) sends no backspaces and no
string and leaves the state unchanged. -/
theorem c5_no_redundant_resend (env : Env) (s : InputState) (tr : TransformResult)
    (h : env.transform s.typing_buffer = some (s.displaying_word, tr)) :
    s.should_send_keyboard_event s.displaying_word = false ∧
    do_transform_keys env false s = (s, [], false) := by
  refine ⟨by simp [InputState.should_send_keyboard_event], ?_⟩
  simp [do_transform_keys, h, InputState.should_send_keyboard_event]

theorem c5_no_redundant_resend_witness :
    (envConst []).transform baseState.typing_buffer
      = some (baseState.displaying_word, ⟨false, false⟩) ∧
    (baseState.should_send_keyboard_event baseState.displaying_word = false ∧
     do_transform_keys (envConst []) false baseState = (baseState, [], false)) :=
  ⟨rfl, c5_no_redundant_resend (envConst []) baseState ⟨false, false⟩ rfl⟩

/-- Claim C7: every replay is, in order, the optional selection-dismissal
(one injected space immediately deleted, exactly when the active
application needs it), then `send_backspace` with the computed count, then
`send_string` with the output; the state proceeds as if the calls
succeeded, recording the output via `replace` into `displaying_word`.
This holds for all three replay sites: `do_transform_keys`,
`do_restore_word` and `do_macro_replace` (the latter two never dismiss). -/
theorem c7_replay_structure (env : Env) (is_delete : Bool) (s : InputState)
    (output target : List Char) (tr : TransformResult)
    (h : env.transform s.typing_buffer = some (output, tr))
    (hsend : (s.should_send_keyboard_event output || is_delete) = true) :
    sendsOf (do_transform_keys env is_delete s).2.1 =
      (if s.should_dismiss_selection_if_needed then [Act.sendStr [' '], Act.sendBackspace 1]
       else []) ++
      [Act.sendBackspace (s.get_backspace_count is_delete), Act.sendStr output] ∧
    (do_transform_keys env is_delete s).1.displaying_word = output ∧
    sendsOf (do_restore_word s).2 =
      [Act.sendBackspace (s.get_backspace_count true), Act.sendStr s.typing_buffer] ∧
    (do_restore_word s).1.displaying_word = s.typing_buffer ∧
    sendsOf (do_macro_replace target s).2 =
      [Act.sendBackspace (s.get_backspace_count true), Act.sendStr target] ∧
    (do_macro_replace target s).1.displaying_word = target := by
  refine ⟨?_, (do_transform_keys_spec env is_delete s output tr h hsend).2.1,
    rfl, rfl, rfl, rfl⟩
  rw [(do_transform_keys_spec env is_delete s output tr h hsend).1]
  by_cases hd : s.should_dismiss_selection_if_needed = true
  · rw [if_pos hd]
    rfl
  · rw [if_neg hd]
    rfl

theorem c7_replay_structure_witness :
    (envConst ['a']).transform baseState.typing_buffer = some (['a'], ⟨false, false⟩) ∧
    (baseState.should_send_keyboard_event ['a'] || false) = true ∧
    (sendsOf (do_transform_keys (envConst ['a']) false baseState).2.1 =
       (if baseState.should_dismiss_selection_if_needed
        then [Act.sendStr [' '], Act.sendBackspace 1] else []) ++
       [Act.sendBackspace (baseState.get_backspace_count false), Act.sendStr ['a']] ∧
     (do_transform_keys (envConst ['a']) false baseState).1.displaying_word = ['a'] ∧
     sendsOf (do_restore_word baseState).2 =
       [Act.sendBackspace (baseState.get_backspace_count true),
        Act.sendStr baseState.typing_buffer] ∧
     (do_restore_word baseState).1.displaying_word = baseState.typing_buffer ∧
     sendsOf (do_macro_replace ['m'] baseState).2 =
       [Act.sendBackspace (baseState.get_backspace_count true), Act.sendStr ['m']] ∧
     (do_macro_replace ['m'] baseState).1.displaying_word = ['m']) :=
  ⟨rfl, by decide,
   c7_replay_structure (envConst ['a']) false baseState ['a'] ['m'] ⟨false, false⟩
     rfl (by decide)⟩

/-- Claim C8: the auto-toggle handler is idempotent — re-notifying the
same foreground application after a first `auto_toggle_vietnamese` call
mutates nothing and emits no UI refresh. -/
theorem c8_auto_toggle_idempotent (app : List Char) (s : InputState) :
    auto_toggle_vietnamese app (auto_toggle_vietnamese app s).1
      = ((auto_toggle_vietnamese app s).1, false) := by
  by_cases hA : s.auto_toggle_enabled = true
  · by_cases hD : (lookupAssoc app s.app_config).getD s.default_enabled = s.enabled
    · simp [auto_toggle_vietnamese, InputState.update_active_app,
        InputState.is_auto_toggle_enabled, hA, hD]
    · simp [auto_toggle_vietnamese, InputState.update_active_app,
        InputState.is_auto_toggle_enabled, hA, hD]
  · simp [auto_toggle_vietnamese, InputState.is_auto_toggle_enabled,
      Bool.not_eq_true, Bool.eq_false_iff.mpr hA]

theorem new_word_reset (t : InputState) :
    t.new_word.typing_buffer = [] ∧ t.new_word.displaying_word = [] ∧
    (t.new_word.temp_disabled = false → t.new_word.tracking = true) := by
  refine ⟨rfl, rfl, fun h => ?_⟩
  have ht : t.temp_disabled = false := h
  simp [InputState.new_word, ht]

/-- Claim C3: after the dispatcher finishes handling any word-boundary key
(enter, tab, space or escape), `typing_buffer` and `displaying_word` are
both empty — cleared together in that same dispatch — and `tracking` is
true unless the engine is temporarily disabled. -/
theorem c3_boundary_reset (env : Env) (et : EventTapType) (mods : KeyModifier)
    (s : InputState) (hk : HkState) (key : Char)
    (hkey : key = KEY_ENTER ∨ key = KEY_TAB ∨ key = KEY_SPACE ∨ key = KEY_ESCAPE) :
    (event_handler env et (some (PressedKey.Char key)) mods s hk).state.typing_buffer = [] ∧
    (event_handler env et (some (PressedKey.Char key)) mods s hk).state.displaying_word = [] ∧
    ((event_handler env et (some (PressedKey.Char key)) mods s hk).state.temp_disabled = false →
      (event_handler env et (some (PressedKey.Char key)) mods s hk).state.tracking = true) := by
  have main : ∀ s1 : InputState,
      (dispatch_char env key mods s1).1.typing_buffer = [] ∧
      (dispatch_char env key mods s1).1.displaying_word = [] ∧
      ((dispatch_char env key mods s1).1.temp_disabled = false →
        (dispatch_char env key mods s1).1.tracking = true) := by
    intro s1
    unfold dispatch_char
    by_cases he : s1.is_enabled = true
    · rw [if_pos he, if_pos hkey]
      exact new_word_reset _
    · rw [if_neg he, if_pos hkey]
      exact new_word_reset _
  exact main _

theorem c3_boundary_reset_witness :
    (KEY_SPACE = KEY_ENTER ∨ KEY_SPACE = KEY_TAB ∨ KEY_SPACE = KEY_SPACE ∨
      KEY_SPACE = KEY_ESCAPE) ∧
    ((event_handler envNone EventTapType.KeyDown (some (PressedKey.Char KEY_SPACE))
        KeyModifier.modifierNone baseState hkInit).state.typing_buffer = [] ∧
     (event_handler envNone EventTapType.KeyDown (some (PressedKey.Char KEY_SPACE))
        KeyModifier.modifierNone baseState hkInit).state.displaying_word = [] ∧
     ((event_handler envNone EventTapType.KeyDown (some (PressedKey.Char KEY_SPACE))
        KeyModifier.modifierNone baseState hkInit).state.temp_disabled = false →
      (event_handler envNone EventTapType.KeyDown (some (PressedKey.Char KEY_SPACE))
        KeyModifier.modifierNone baseState hkInit).state.tracking = true)) :=
  ⟨by decide,
   c3_boundary_reset envNone EventTapType.KeyDown KeyModifier.modifierNone baseState hkInit
     KEY_SPACE (by decide)⟩

/-- Claim C10: a delete key handled while the engine is enabled starts a
new word when the modifier set is non-empty and not shift, and otherwise
pops exactly the last raw character from the typing buffer. -/
theorem c10_delete_key (env : Env) (mods : KeyModifier) (s : InputState) (hk : HkState)
    (he : s.is_enabled = true) :
    (event_handler env EventTapType.KeyDown (some (PressedKey.Char KEY_DELETE))
        mods s hk).state =
      (if !mods.is_empty && !mods.is_shift then s.new_word else s.pop) ∧
    (event_handler env EventTapType.KeyDown (some (PressedKey.Char KEY_DELETE))
        mods s hk).trace =
      (if !mods.is_empty && !mods.is_shift then [Act.newWordMark] else [Act.popMark]) ∧
    s.pop.typing_buffer = s.typing_buffer.dropLast := by
  have hb : ¬(KEY_DELETE = KEY_ENTER ∨ KEY_DELETE = KEY_TAB ∨ KEY_DELETE = KEY_SPACE ∨
      KEY_DELETE = KEY_ESCAPE) := by decide
  have main : dispatch_char env KEY_DELETE mods s =
      (if !mods.is_empty && !mods.is_shift then (s.new_word, [Act.newWordMark], false)
       else (s.pop, [Act.popMark], false)) := by
    unfold dispatch_char
    rw [if_pos he, if_neg hb, if_pos (rfl : KEY_DELETE = KEY_DELETE)]
  refine ⟨?_, ?_, rfl⟩
  · show (dispatch_char env KEY_DELETE mods s).1 = _
    rw [main]
    by_cases hm : (!mods.is_empty && !mods.is_shift) = true
    · rw [if_pos hm, if_pos hm]
    · rw [if_neg hm, if_neg hm]
  · show (dispatch_char env KEY_DELETE mods s).2.1 = _
    rw [main]
    by_cases hm : (!mods.is_empty && !mods.is_shift) = true
    · rw [if_pos hm, if_pos hm]
    · rw [if_neg hm, if_neg hm]

theorem event_handler_state (env : Env) (et : EventTapType) (pk : Option PressedKey)
    (mods : KeyModifier) (s0 : InputState) (hk0 : HkState) :
    (event_handler env et pk mods s0 hk0).state =
      (dispatch_key env et pk mods
        (if toggle_fired et mods hk0 then s0.toggle_vietnamese else s0)).1 := rfl

theorem event_handler_trace (env : Env) (et : EventTapType) (pk : Option PressedKey)
    (mods : KeyModifier) (s0 : InputState) (hk0 : HkState) :
    (event_handler env et pk mods s0 hk0).trace =
      (if toggle_fired et mods hk0 then [Act.toggleMark] else []) ++
      (dispatch_key env et pk mods
        (if toggle_fired et mods hk0 then s0.toggle_vietnamese else s0)).2.1 := rfl

theorem event_handler_hk (env : Env) (et : EventTapType) (pk : Option PressedKey)
    (mods : KeyModifier) (s0 : InputState) (hk0 : HkState) :
    (event_handler env et pk mods s0 hk0).hk =
      hk_after (if toggle_fired et mods hk0 then s0.toggle_vietnamese else s0)
        et pk mods hk0 := rfl

theorem toggleCount_restore (s : InputState) : toggleCount (do_restore_word s).2 = 0 := rfl

theorem toggleCount_macro_replace (t : List Char) (s : InputState) :
    toggleCount (do_macro_replace t s).2 = 0 := rfl

theorem toggleCount_macro_step (s : InputState) : toggleCount (macro_step s).2 = 0 := by
  unfold macro_step
  cases s.get_macro_target <;> rfl

theorem toggleCount_transform (env : Env) (d : Bool) (s : InputState) :
    toggleCount (do_transform_keys env d s).2.1 = 0 := by
  unfold do_transform_keys
  cases henv : env.transform s.typing_buffer with
  | none => rfl
  | some p =>
    obtain ⟨out, tr⟩ := p
    dsimp only
    split_ifs <;> rfl

theorem toggleCount_dispatch (env : Env) (et : EventTapType) (pk : Option PressedKey)
    (mods : KeyModifier) (s1 : InputState) :
    toggleCount (dispatch_key env et pk mods s1).2.1 =
      (if pk = some (PressedKey.Raw RAW_KEY_GLOBE) then 1 else 0) := by
  cases pk with
  | none =>
    rw [show dispatch_key env et none mods s1 = dispatch_none et mods s1 from rfl]
    rw [if_neg (by simp : ¬ (none : Option PressedKey) = some (PressedKey.Raw RAW_KEY_GLOBE))]
    simp only [dispatch_none]
    split_ifs <;>
      simp [apply_ite, toggleCount_append, toggleCount, toggleCount_restore]
  | some p =>
    cases p with
    | Raw r =>
      rw [show dispatch_key env et (some (PressedKey.Raw r)) mods s1
            = dispatch_raw r s1 from rfl]
      by_cases hr : r = RAW_KEY_GLOBE
      · rw [if_pos (show some (PressedKey.Raw r) = some (PressedKey.Raw RAW_KEY_GLOBE)
            by rw [hr])]
        simp only [dispatch_raw]
        rw [if_pos hr]
        rfl
      · rw [if_neg (show ¬ some (PressedKey.Raw r) = some (PressedKey.Raw RAW_KEY_GLOBE)
            by simp [hr])]
        simp only [dispatch_raw]
        rw [if_neg hr]
        split_ifs <;> simp [apply_ite, toggleCount_append, toggleCount]
    | Char c =>
      rw [show dispatch_key env et (some (PressedKey.Char c)) mods s1
            = dispatch_char env c mods s1 from rfl]
      rw [if_neg (by simp : ¬ some (PressedKey.Char c) = some (PressedKey.Raw RAW_KEY_GLOBE))]
      simp only [dispatch_char]
      split_ifs <;>
        simp [apply_ite, toggleCount_append, toggleCount, toggleCount_restore,
          toggleCount_macro_step, toggleCount_transform]

/-- Claim C2 (amended): the Vietnamese toggle fires exactly once on each
FlagsChanged event with an empty modifier set while the chord was matching
and not circuit-broken, exactly once on each Globe-key press (which
unconditionally toggles), and never otherwise; `hotkey_matching` can only
be true while the held-modifier set is non-empty (for a hotkey whose
configured modifier set is non-empty); for a Ctrl-only hotkey,
press-then-release fires the toggle exactly once, and
press-Ctrl-press-C-release-all fires it zero times. -/
theorem c2_hotkey_toggle (env : Env) (et : EventTapType) (pk : Option PressedKey)
    (mods : KeyModifier) (s : InputState) (hk : HkState) :
    (toggleCount (event_handler env et pk mods s hk).trace =
       (if toggle_fired et mods hk then 1 else 0) +
       (if pk = some (PressedKey.Raw RAW_KEY_GLOBE) then 1 else 0)) ∧
    (s.get_hotkey.modifiers.is_empty = false →
      (event_handler env et pk mods s hk).hk.hotkey_matching = true →
      (event_handler env et pk mods s hk).hk.hotkey_modifiers.is_empty = false) ∧
    toggleCount (run envNone scenarioPressRelease baseState hkInit).2.2 = 1 ∧
    toggleCount (run envNone scenarioCtrlC baseState hkInit).2.2 = 0 := by
  refine ⟨?_, ?_, by decide, by decide⟩
  · rw [event_handler_trace, toggleCount_append, toggleCount_dispatch]
    congr 1
    by_cases hf : toggle_fired et mods hk = true
    · simp [hf, toggleCount]
    · simp [Bool.eq_false_iff.mpr hf, toggleCount]
  · intro hcfg hmatch
    rw [event_handler_hk] at hmatch ⊢
    have hhk : (if toggle_fired et mods hk then s.toggle_vietnamese else s).get_hotkey
        = s.get_hotkey := by
      by_cases hf : toggle_fired et mods hk = true
      · simp [hf, InputState.toggle_vietnamese, InputState.get_hotkey]
      · simp [Bool.eq_false_iff.mpr hf]
    simp only [hk_after, Hotkey.is_match, Bool.and_eq_true, decide_eq_true_eq] at hmatch
    simp only [hk_after, decide_eq_true_eq]
    rw [hmatch.1, hhk]
    exact hcfg

theorem c2_hotkey_toggle_witness :
    baseState.get_hotkey.modifiers.is_empty = false ∧
    ((event_handler envNone EventTapType.FlagsChanged none ctrlOnly baseState
        hkInit).hk.hotkey_matching = true →
      (event_handler envNone EventTapType.FlagsChanged none ctrlOnly baseState
        hkInit).hk.hotkey_modifiers.is_empty = false) :=
  ⟨by decide,
   (c2_hotkey_toggle envNone EventTapType.FlagsChanged none ctrlOnly baseState
      hkInit).2.1 (by decide)⟩

theorem c2_globe_key_counterexample :
    toggleCount (event_handler envNone EventTapType.KeyDown
        (some (PressedKey.Raw RAW_KEY_GLOBE)) KeyModifier.modifierNone baseState
        hkInit).trace = 1 ∧
    toggle_fired EventTapType.KeyDown KeyModifier.modifierNone hkInit = false ∧
    ¬ EventTapType.KeyDown = EventTapType.FlagsChanged := by
  refine ⟨by decide, by decide, by decide⟩

/-- Claim C9: an event with no pressed key, arriving while the recorded
previous modifiers were empty and with Control held, temporarily disables
the engine; when the typing buffer is non-empty the raw buffer is first
replayed (restore) before the disable, as the emitted trace shows. -/
theorem c9_ctrl_temp_disable (env : Env) (et : EventTapType) (mods : KeyModifier)
    (s : InputState) (hk : HkState)
    (hprev : s.get_previous_modifiers.is_empty = true)
    (hctrl : mods.is_control = true) :
    (event_handler env et none mods s hk).state.temp_disabled = true ∧
    (event_handler env et none mods s hk).trace =
      (if decide (¬ s.get_typing_buffer = []) then
        [Act.restoreMark, Act.sendBackspace (s.get_backspace_count true),
         Act.sendStr s.get_typing_buffer]
       else []) ++ [Act.tempDisableMark] ++
      (if mods.is_super || decide (et = EventTapType.Other)
       then [Act.newWordMark] else []) := by
  have hie : mods.is_empty = false := by
    have hc : mods.control = true := hctrl
    simp [KeyModifier.is_empty, hc]
  have hf : toggle_fired et mods hk = false := by
    simp [toggle_fired, hie]
  have hs1 : (if toggle_fired et mods hk then s.toggle_vietnamese else s) = s := by
    simp [hf]
  constructor
  · rw [event_handler_state, hs1,
      show dispatch_key env et none mods s = dispatch_none et mods s from rfl]
    simp only [dispatch_none]
    rw [if_pos hprev, if_pos hctrl]
    by_cases hsup : (mods.is_super || decide (et = EventTapType.Other)) = true
    · rw [if_pos hsup]
      by_cases hbuf : (decide (¬ s.get_typing_buffer = []) = true)
      · rw [if_pos hbuf]
        rfl
      · rw [if_neg hbuf]
        rfl
    · rw [if_neg hsup]
      by_cases hbuf : (decide (¬ s.get_typing_buffer = []) = true)
      · rw [if_pos hbuf]
        rfl
      · rw [if_neg hbuf]
        rfl
  · rw [event_handler_trace, hs1,
      show dispatch_key env et none mods s = dispatch_none et mods s from rfl, hf]
    simp only [dispatch_none]
    rw [if_pos hprev, if_pos hctrl]
    by_cases hsup : (mods.is_super || decide (et = EventTapType.Other)) = true
    · rw [if_pos hsup, if_pos hsup]
      by_cases hbuf : (decide (¬ s.get_typing_buffer = []) = true)
      · rw [if_pos hbuf, if_pos hbuf]
        rfl
      · rw [if_neg hbuf, if_neg hbuf]
        rfl
    · rw [if_neg hsup, if_neg hsup]
      by_cases hbuf : (decide (¬ s.get_typing_buffer = []) = true)
      · rw [if_pos hbuf, if_pos hbuf]
        rfl
      · rw [if_neg hbuf, if_neg hbuf]
        rfl

theorem c9_ctrl_temp_disable_witness :
    restoreState.get_previous_modifiers.is_empty = true ∧
    ctrlOnly.is_control = true ∧
    ((event_handler envNone EventTapType.FlagsChanged none ctrlOnly restoreState
        hkInit).state.temp_disabled = true ∧
     (event_handler envNone EventTapType.FlagsChanged none ctrlOnly restoreState
        hkInit).trace =
      (if decide (¬ restoreState.get_typing_buffer = []) then
        [Act.restoreMark, Act.sendBackspace (restoreState.get_backspace_count true),
         Act.sendStr restoreState.get_typing_buffer]
       else []) ++ [Act.tempDisableMark] ++
      (if ctrlOnly.is_super || decide (EventTapType.FlagsChanged = EventTapType.Other)
       then [Act.newWordMark] else [])) :=
  ⟨rfl, rfl,
   c9_ctrl_temp_disable envNone EventTapType.FlagsChanged ctrlOnly restoreState hkInit
     rfl rfl⟩

theorem c10_delete_key_witness :
    baseState.is_enabled = true ∧
    ((event_handler envNone EventTapType.KeyDown (some (PressedKey.Char KEY_DELETE))
        KeyModifier.modifierNone baseState hkInit).state =
      (if !KeyModifier.modifierNone.is_empty && !KeyModifier.modifierNone.is_shift
       then baseState.new_word else baseState.pop) ∧
     (event_handler envNone EventTapType.KeyDown (some (PressedKey.Char KEY_DELETE))
        KeyModifier.modifierNone baseState hkInit).trace =
      (if !KeyModifier.modifierNone.is_empty && !KeyModifier.modifierNone.is_shift
       then [Act.newWordMark] else [Act.popMark]) ∧
     baseState.pop.typing_buffer = baseState.typing_buffer.dropLast) :=
  ⟨rfl, c10_delete_key envNone KeyModifier.modifierNone baseState hkInit rfl⟩

/-- Claim C6 (amended): while the engine is enabled, a word-boundary key
performs, in this order: (1) restore of the raw typed sequence when the
word was transformed and is neither linguistically valid nor explicitly
allowed, (2) clearing of stale stop-tracking history, (3) macro expansion
— only when the boundary key is tab or space — when the finalized word
matches a macro trigger, and (4) the word-boundary reset. -/
theorem c6_boundary_order (env : Env) (mods : KeyModifier) (s : InputState) (hk : HkState)
    (key : Char) (he : s.is_enabled = true)
    (hkey : key = KEY_ENTER ∨ key = KEY_TAB ∨ key = KEY_SPACE ∨ key = KEY_ESCAPE) :
    (event_handler env EventTapType.KeyDown (some (PressedKey.Char key)) mods s hk).trace =
      (if boundary_restore_cond env s then (do_restore_word s).2 else []) ++
      (if (boundary_after_restore env s).previous_word_is_stop_tracking_words
       then [Act.clearPrevMark] else []) ++
      (if key = KEY_TAB ∨ key = KEY_SPACE then (macro_step (boundary_after_hist env s)).2
       else []) ++ [Act.newWordMark] := by
  show (dispatch_char env key mods s).2.1 = _
  simp only [dispatch_char]
  rw [if_pos he, if_pos hkey]
  simp only [boundary_restore_cond, boundary_after_restore, boundary_after_hist]
  split_ifs <;> simp [List.append_assoc]

theorem c6_boundary_order_witness :
    macroState.is_enabled = true ∧
    (KEY_TAB = KEY_ENTER ∨ KEY_TAB = KEY_TAB ∨ KEY_TAB = KEY_SPACE ∨
      KEY_TAB = KEY_ESCAPE) ∧
    (event_handler envNone EventTapType.KeyDown (some (PressedKey.Char KEY_TAB))
        KeyModifier.modifierNone macroState hkInit).trace =
      (if boundary_restore_cond envNone macroState then (do_restore_word macroState).2
       else []) ++
      (if (boundary_after_restore envNone macroState).previous_word_is_stop_tracking_words
       then [Act.clearPrevMark] else []) ++
      (if KEY_TAB = KEY_TAB ∨ KEY_TAB = KEY_SPACE
       then (macro_step (boundary_after_hist envNone macroState)).2 else []) ++
      [Act.newWordMark] :=
  ⟨rfl, by decide,
   c6_boundary_order envNone KeyModifier.modifierNone macroState hkInit KEY_TAB rfl
     (by decide)⟩

theorem c6_enter_macro_counterexample :
    macroState.get_macro_target = some ['b', 'y'] ∧
    (event_handler envNone EventTapType.KeyDown (some (PressedKey.Char KEY_ENTER))
        KeyModifier.modifierNone macroState hkInit).trace = [Act.newWordMark] :=
  ⟨by decide, by decide⟩

end Goxkey
